import Mathlib

/-!
Verification of the prompt_service admission gate.

Shallow embedding of `speech_gate.py` and `main.py`: the gate state is a
record, each method becomes a pure function taking the current wall-clock
time `now : ℤ` explicitly (Python reads `time.time()`), and the two outbound
collaborators (the Director context provider and Nami's delivery endpoint)
are modelled by a `World` oracle fixing their outcomes for one request.
Exceptions inside collaborator calls are caught in the Python code and turned
into `None` / `False`; the oracle therefore ranges over exactly those
observable outcomes.
-/

set_option autoImplicit false

/-- A JSON-like value, for request metadata and director auxiliary fields. -/
inductive JVal where
  | str : String → JVal
  | num : ℚ → JVal
  | bool : Bool → JVal
  | null : JVal
deriving DecidableEq

/-- Parsed successful response of the Director /context call
(`_fetch_director_context`, main.py:170-218): a dict from which the handler
reads "context" (defaulting to "") and the auxiliary keys. -/
structure DirectorData where
  context : Option String
  mood : Option JVal
  scene : Option JVal
  directive : Option JVal
  active_user : Option JVal
deriving DecidableEq

/-- Inbound speak request (`SpeakRequest`, main.py:42-50). -/
structure SpeakRequest where
  trigger : String
  content : String
  priority : ℚ
  source : String
  is_interrupt : Bool
  event_id : Option String
  metadata : List (String × JVal)
deriving DecidableEq

/-- Timing configuration (config.py). -/
structure Config where
  SPEECH_TIMEOUT : ℤ
  POST_SPEECH_COOLDOWN : ℤ
  MIN_SPEECH_INTERVAL : ℤ
  POST_RESPONSE_COOLDOWN : ℤ
deriving DecidableEq

/-- The defaults in config.py:13-16. -/
def defaultConfig : Config :=
  { SPEECH_TIMEOUT := 60, POST_SPEECH_COOLDOWN := 5,
    MIN_SPEECH_INTERVAL := 5, POST_RESPONSE_COOLDOWN := 10 }

/-- Gate state (`SpeechGate.__init__`, speech_gate.py:22-46).  Python uses the
float 0.0 as the "absent" sentinel for the timestamps; we keep that.  The
dedup `set` is modelled as a duplicate-free list, newest first; the
arbitrary element `set.pop()` removes on overflow is an explicit oracle
choice (see `updateLedger`). -/
structure SpeechGate where
  nami_is_speaking : Bool
  speech_started_time : ℤ
  last_speech_finished_time : ℤ
  last_speech_source : Option String
  awaiting_user_response : Bool
  last_interrupt_time : ℤ
  interrupt_count : ℕ
  last_dispatch_time : ℤ
  last_user_response_time : ℤ
  reacted_event_ids : List String
  max_tracked_events : ℕ
  speech_timeout : ℤ
  post_speech_cooldown : ℤ
  min_speech_interval : ℤ
  post_response_cooldown : ℤ
deriving DecidableEq

/-- Fresh gate state built from a config (speech_gate.py:22-46). -/
def initGate (cfg : Config) : SpeechGate :=
  { nami_is_speaking := false
    speech_started_time := 0
    last_speech_finished_time := 0
    last_speech_source := none
    awaiting_user_response := false
    last_interrupt_time := 0
    interrupt_count := 0
    last_dispatch_time := 0
    last_user_response_time := 0
    reacted_event_ids := []
    max_tracked_events := 50
    speech_timeout := cfg.SPEECH_TIMEOUT
    post_speech_cooldown := cfg.POST_SPEECH_COOLDOWN
    min_speech_interval := cfg.MIN_SPEECH_INTERVAL
    post_response_cooldown := cfg.POST_RESPONSE_COOLDOWN }

/-- Python truthiness of an `Optional[str]`: `None` and `""` are falsy. -/
def strTruthy : Option String → Bool
  | none => false
  | some s => s ≠ ""

/-- `SpeechGate.set_speaking` (speech_gate.py:52-71).  On a start report the
start time is stamped unconditionally; the source label is recorded only when
truthy.  On a finish report the finished time is stamped and a pending
`awaiting_user_response` is cleared. -/
def set_speaking (s : SpeechGate) (is_spk : Bool) (source : Option String)
    (now : ℤ) : SpeechGate :=
  let s := { s with nami_is_speaking := is_spk }
  if is_spk then
    let s := { s with speech_started_time := now }
    if strTruthy source then { s with last_speech_source := source } else s
  else
    let s := { s with last_speech_finished_time := now }
    if s.awaiting_user_response then { s with awaiting_user_response := false }
    else s

/-- `SpeechGate.is_speaking` (speech_gate.py:73-83).  Returns the flag, but
first applies the timeout failsafe, which mutates the state; hence the
result is a pair of the answer and the (possibly healed) state. -/
def is_speaking (s : SpeechGate) (now : ℤ) : Bool × SpeechGate :=
  if s.nami_is_speaking = false then (false, s)
  else if s.speech_started_time ≠ 0 ∧ now - s.speech_started_time > s.speech_timeout then
    (false, { s with nami_is_speaking := false, awaiting_user_response := false })
  else (true, s)

/-- `SpeechGate.in_cooldown` (speech_gate.py:85-89). -/
def in_cooldown (s : SpeechGate) (now : ℤ) : Bool :=
  if s.last_speech_finished_time = 0 then false
  else decide (now - s.last_speech_finished_time < s.post_speech_cooldown)

/-- Result of `can_speak`: the `{"allowed": ..., "reason": ...}` dict. -/
structure GateDecision where
  allowed : Bool
  reason : String
deriving DecidableEq

/-- `SpeechGate.can_speak` (speech_gate.py:95-119): the ordered rule chain.
Gate 1 calls `is_speaking`, whose failsafe may mutate the state; the later
gates read the resulting state. -/
def can_speak (s : SpeechGate) (now : ℤ) : GateDecision × SpeechGate :=
  let r := is_speaking s now
  let s1 := r.2
  if r.1 then (⟨false, "nami_speaking"⟩, s1)
  else if in_cooldown s1 now then (⟨false, "post_speech_cooldown"⟩, s1)
  else if now - s1.last_dispatch_time < s1.min_speech_interval then
    (⟨false, "min_interval"⟩, s1)
  else if now - s1.last_user_response_time < s1.post_response_cooldown then
    (⟨false, "post_response_cooldown"⟩, s1)
  else (⟨true, "ok"⟩, s1)

/-- `SpeechGate.check_event_reacted` (speech_gate.py:121-125). -/
def check_event_reacted (s : SpeechGate) (event_id : Option String) : Bool :=
  if strTruthy event_id then
    match event_id with
    | some e => s.reacted_event_ids.contains e
    | none => false
  else false

/-- The ledger mutation inside `register_dispatch` (speech_gate.py:134-137):
`set.add` is a no-op on a present element, otherwise the element joins the
set; when the size then exceeds the cap, `set.pop()` removes an *arbitrary*
element - possibly the one just added.  The arbitrary choice is made
explicit as the `evict` oracle: it picks the position removed (`% length`
makes every position reachable), and every theorem below quantifies over
it, so nothing relies on which element the pop picks. -/
def updateLedger (ids : List String) (cap : ℕ) (e : String) (evict : ℕ) :
    List String :=
  let ids1 := if ids.contains e then ids else e :: ids
  if ids1.length > cap then ids1.eraseIdx (evict % ids1.length) else ids1

/-- `SpeechGate.register_dispatch` (speech_gate.py:131-137): stamp the
dispatch time; on a truthy event id, insert it into the ledger and evict an
arbitrary element (chosen by the `evict` oracle) when over capacity. -/
def register_dispatch (s : SpeechGate) (event_id : Option String)
    (evict : ℕ) (now : ℤ) : SpeechGate :=
  let s := { s with last_dispatch_time := now }
  if strTruthy event_id then
    match event_id with
    | some e =>
      { s with reacted_event_ids :=
          updateLedger s.reacted_event_ids s.max_tracked_events e evict }
    | none => s
  else s

/-- `SpeechGate.register_user_response` (speech_gate.py:139-142). -/
def register_user_response (s : SpeechGate) (now : ℤ) : SpeechGate :=
  { s with last_user_response_time := now }

/-- `SpeechGate.clear_user_awaiting` (speech_gate.py:144-148). -/
def clear_user_awaiting (s : SpeechGate) : SpeechGate :=
  { s with awaiting_user_response := false }

/-- `SpeechGate.interrupt` (speech_gate.py:154-176): capture the raw flag,
force it off, stamp the interrupt time, bump the counter, set awaiting;
return whether she was speaking. -/
def interrupt (s : SpeechGate) (now : ℤ) : Bool × SpeechGate :=
  (s.nami_is_speaking,
   { s with nami_is_speaking := false
            last_interrupt_time := now
            interrupt_count := s.interrupt_count + 1
            awaiting_user_response := true })

/-- Environment oracle for one request: the outcomes of the two outbound
collaborator calls, plus the arbitrary choice `set.pop()` makes on a ledger
overflow.  `director_response = none` covers every failure mode of the
context fetch (connect error, timeout, non-200 status, other exception),
all of which `_fetch_director_context` turns into `None`; `nami_accepts =
false` likewise covers every delivery failure `_forward_to_nami` turns into
`False`; `evict` resolves the pop nondeterminism. -/
structure World where
  director_response : Option DirectorData
  nami_accepts : Bool
  evict : ℕ
deriving DecidableEq

/-- Insert-or-replace into a Python-dict-like association list: an existing
key keeps its position and gets the new value, a new key is appended. -/
def setKey : List (String × JVal) → String → JVal → List (String × JVal)
  | [], k, v => [(k, v)]
  | p :: rest, k, v =>
    if p.1 = k then (k, v) :: rest else p :: setKey rest k v

/-- The `**metadata` splat: fold the metadata entries into the base dict,
later entries overriding same-named keys. -/
def mergeMeta (base md : List (String × JVal)) : List (String × JVal) :=
  md.foldl (fun d p => setKey d p.1 p.2) base

/-- Dict lookup: value of the first entry with the given key. -/
def lookupKey : List (String × JVal) → String → Option JVal
  | [], _ => none
  | p :: rest, k => if p.1 = k then some p.2 else lookupKey rest k

/-- Auxiliary director field passed through to Nami
(`director_data.get("mood") if director_data else None`). -/
def optField (dd : Option DirectorData) (f : DirectorData → Option JVal) : JVal :=
  match dd with
  | none => JVal.null
  | some d => (f d).getD JVal.null

/-- The fixed part of the `source_info` dict literal (main.py:259-267),
before the `**req.metadata` splat. -/
def source_info_base (req : SpeakRequest) (dd : Option DirectorData) :
    List (String × JVal) :=
  [("source", JVal.str req.source),
   ("use_tts", JVal.bool true),
   ("is_interrupt", JVal.bool req.is_interrupt),
   ("mood", optField dd DirectorData.mood),
   ("scene", optField dd DirectorData.scene),
   ("directive", optField dd DirectorData.directive),
   ("active_user", optField dd DirectorData.active_user)]

/-- The payload POSTed to Nami (main.py:253-270). -/
structure NamiPayload where
  context : String
  content : String
  priority : ℚ
  source_info : List (String × JVal)
deriving DecidableEq

/-- Payload construction in `_forward_to_nami` (main.py:245-270):
`context_block = director_data.get("context", "") if director_data else ""`,
the request content, priority forced to 0.0 for interrupts, and the merged
`source_info` dict. -/
def build_payload (req : SpeakRequest) (dd : Option DirectorData) : NamiPayload :=
  { context := match dd with
               | some d => d.context.getD ""
               | none => ""
    content := req.content
    priority := if req.is_interrupt then 0 else req.priority
    source_info := mergeMeta (source_info_base req dd) req.metadata }

/-- The JSON body `handle_speak` returns to the brain. `interrupted` is
present only on the interrupt path. -/
structure SpeakResponse where
  delivered : Bool
  gate_result : String
  interrupted : Option Bool
deriving DecidableEq

/-- Observable side effects of one `handle_speak` call: which collaborator
calls were made and whether the gate's dispatch bookkeeping ran. -/
structure Effects where
  context_fetch_attempted : Bool
  delivery_attempted : Bool
  stop_signal_sent : Bool
  register_dispatch_called : Bool
  payload_sent : Option NamiPayload
deriving DecidableEq

/-- The empty effect record: no outbound call, no bookkeeping. -/
def noEffects : Effects :=
  { context_fetch_attempted := false, delivery_attempted := false,
    stop_signal_sent := false, register_dispatch_called := false,
    payload_sent := none }

/-- `handle_speak` (main.py:62-105) with a live HTTP client (the startup
invariant): interrupt path first, then dedup, then the rule chain, then
forward-and-register.  `_forward_to_nami` always fetches context and then
attempts delivery; its success is the oracle's `nami_accepts`. -/
def handle_speak (s : SpeechGate) (req : SpeakRequest) (w : World)
    (now : ℤ) : SpeakResponse × SpeechGate × Effects :=
  if req.is_interrupt then
    let r := interrupt s now
    let pl := build_payload req w.director_response
    (⟨w.nami_accepts, "interrupt_bypass", some r.1⟩, r.2,
     { context_fetch_attempted := true, delivery_attempted := true,
       stop_signal_sent := r.1, register_dispatch_called := false,
       payload_sent := some pl })
  else if check_event_reacted s req.event_id then
    (⟨false, "already_reacted", none⟩, s, noEffects)
  else
    let c := can_speak s now
    if c.1.allowed then
      let pl := build_payload req w.director_response
      let success := w.nami_accepts
      let s2 := if success then register_dispatch c.2 req.event_id w.evict now
                else c.2
      (⟨success, if success then "ok" else "nami_rejected", none⟩, s2,
       { context_fetch_attempted := true, delivery_attempted := true,
         stop_signal_sent := false, register_dispatch_called := success,
         payload_sent := some pl })
    else
      (⟨false, c.1.reason, none⟩, c.2, noEffects)

/-- The four admission rules of `can_speak` in evaluation order, each paired
with its reason code and whether it fires against the given state. -/
def ruleList (s : SpeechGate) (now : ℤ) : List (String × Bool) :=
  [("nami_speaking", (is_speaking s now).1),
   ("post_speech_cooldown", in_cooldown s now),
   ("min_interval", decide (now - s.last_dispatch_time < s.min_speech_interval)),
   ("post_response_cooldown",
    decide (now - s.last_user_response_time < s.post_response_cooldown))]

/-- Reason code of the first rule that fires, if any. -/
def firstFailing (rs : List (String × Bool)) : Option String :=
  (rs.find? (fun r => r.2)).map Prod.fst

/-- Concrete fixtures used by the witness theorems. -/
def gate0 : SpeechGate := initGate defaultConfig

/-- A gate that is mid-speech at time 100 (started at 90, 60s timeout). -/
def sBusy : SpeechGate :=
  { gate0 with nami_is_speaking := true, speech_started_time := 90 }

/-- A plain non-interrupt request without an event id. -/
def req0 : SpeakRequest :=
  { trigger := "dead_air", content := "say something", priority := 1,
    source := "DIRECTOR", is_interrupt := false, event_id := none,
    metadata := [] }

/-- A world where the Director is down and Nami accepts the delivery. -/
def w0 : World :=
  { director_response := none, nami_accepts := true, evict := 0 }

/-- The timeout failsafe inside `is_speaking` touches only the speaking flag
and the awaiting flag; every other field of the returned state is unchanged. -/
lemma is_speaking_snd (s : SpeechGate) (now : ℤ) :
    (is_speaking s now).2.last_speech_finished_time = s.last_speech_finished_time ∧
    (is_speaking s now).2.post_speech_cooldown = s.post_speech_cooldown ∧
    (is_speaking s now).2.last_dispatch_time = s.last_dispatch_time ∧
    (is_speaking s now).2.min_speech_interval = s.min_speech_interval ∧
    (is_speaking s now).2.last_user_response_time = s.last_user_response_time ∧
    (is_speaking s now).2.post_response_cooldown = s.post_response_cooldown ∧
    (is_speaking s now).2.reacted_event_ids = s.reacted_event_ids ∧
    (is_speaking s now).2.speech_timeout = s.speech_timeout ∧
    (is_speaking s now).2.speech_started_time = s.speech_started_time ∧
    (is_speaking s now).2.max_tracked_events = s.max_tracked_events := by
  unfold is_speaking
  split
  · simp
  · split <;> simp

/-- The failsafe does not change the cooldown computation. -/
lemma in_cooldown_is_speaking (s : SpeechGate) (now : ℤ) :
    in_cooldown (is_speaking s now).2 now = in_cooldown s now := by
  obtain ⟨h1, h2, -⟩ := is_speaking_snd s now
  unfold in_cooldown
  rw [h1, h2]

/-- `can_speak` returns exactly the first failing rule of the ordered rule
list, or `ok` when none fails. -/
lemma can_speak_eq (s : SpeechGate) (now : ℤ) :
    (can_speak s now).1 =
      (firstFailing (ruleList s now)).elim ⟨true, "ok"⟩ (fun r => ⟨false, r⟩) := by
  obtain ⟨h1, h2, h3, h4, h5, h6, -⟩ := is_speaking_snd s now
  have hcool := in_cooldown_is_speaking s now
  by_cases hs : (is_speaking s now).1 = true <;>
  by_cases hc : in_cooldown s now = true <;>
  by_cases hm : now - s.last_dispatch_time < s.min_speech_interval <;>
  by_cases hr : now - s.last_user_response_time < s.post_response_cooldown <;>
    simp [can_speak, firstFailing, ruleList, List.find?, hs, hc, hm, hr,
          hcool, h3, h4, h5, h6]

/-- C1: on the normal path (non-interrupt, event not yet reacted), the
admission rules are evaluated in the fixed order nami_speaking,
post_speech_cooldown, min_interval, post_response_cooldown; the decision is
allowed with reason "ok" iff no rule fires, and when a rule fires the
response is delivered=false with gate_result the first failing rule's code
and no context fetch or delivery call is made. -/
theorem C1_rule_chain_order (s : SpeechGate) (req : SpeakRequest) (w : World)
    (now : ℤ)
    (hni : req.is_interrupt = false)
    (hde : check_event_reacted s req.event_id = false) :
    ((can_speak s now).1.allowed = true ↔ firstFailing (ruleList s now) = none) ∧
    (firstFailing (ruleList s now) = none →
      (can_speak s now).1 = ⟨true, "ok"⟩) ∧
    (∀ r, firstFailing (ruleList s now) = some r →
      (can_speak s now).1 = ⟨false, r⟩ ∧
      (handle_speak s req w now).1 = ⟨false, r, none⟩ ∧
      (handle_speak s req w now).2.2 = noEffects) := by
  have hcs := can_speak_eq s now
  refine ⟨?_, ?_, ?_⟩
  · cases hf : firstFailing (ruleList s now) <;> simp [hf] at hcs <;> simp [hcs]
  · intro hf
    simp [hf] at hcs
    exact hcs
  · intro r hf
    simp [hf] at hcs
    refine ⟨hcs, ?_, ?_⟩ <;>
      simp [handle_speak, hni, hde, hcs]

/-- Witness for C1 at a concrete state: the gate is mid-speech at time 100,
so the first rule fires and the request is denied with no outbound calls. -/
theorem C1_rule_chain_order_witness :
    (can_speak sBusy 100).1 = ⟨false, "nami_speaking"⟩ ∧
    (handle_speak sBusy req0 w0 100).1 = ⟨false, "nami_speaking", none⟩ ∧
    (handle_speak sBusy req0 w0 100).2.2 = noEffects :=
  (C1_rule_chain_order sBusy req0 w0 100 rfl rfl).2.2 "nami_speaking" (by decide)

/-- An interrupt request fixture. -/
def reqI : SpeakRequest :=
  { trigger := "interrupt", content := "stop and react", priority := 1,
    source := "DIRECTOR", is_interrupt := true, event_id := some "ev-9",
    metadata := [] }

/-- C2: an interrupt request is never deduped and never blocked: `interrupt`
captures the raw speaking flag, forces it off, stamps `last_interrupt_time`,
bumps `interrupt_count`, sets `awaiting_user_response`, and returns the
captured flag; the handler always attempts delivery, answers with
gate_result "interrupt_bypass" and `interrupted` = the captured flag, and
sends the stop signal exactly when she was speaking. -/
theorem C2_interrupt_bypass (s : SpeechGate) (req : SpeakRequest) (w : World)
    (now : ℤ) (hi : req.is_interrupt = true) :
    (interrupt s now).1 = s.nami_is_speaking ∧
    (interrupt s now).2.nami_is_speaking = false ∧
    (interrupt s now).2.last_interrupt_time = now ∧
    (interrupt s now).2.interrupt_count = s.interrupt_count + 1 ∧
    (interrupt s now).2.awaiting_user_response = true ∧
    (handle_speak s req w now).1 =
      ⟨w.nami_accepts, "interrupt_bypass", some s.nami_is_speaking⟩ ∧
    (handle_speak s req w now).2.1 = (interrupt s now).2 ∧
    (handle_speak s req w now).2.2.delivery_attempted = true ∧
    (handle_speak s req w now).2.2.stop_signal_sent = s.nami_is_speaking ∧
    (handle_speak s req w now).2.2.register_dispatch_called = false := by
  refine ⟨rfl, rfl, rfl, rfl, rfl, ?_, ?_, ?_, ?_, ?_⟩ <;>
    simp [handle_speak, hi, interrupt]

/-- Witness for C2: interrupting the mid-speech gate at time 100 while its
event id is already in the ledger still delivers and reports the halt. -/
theorem C2_interrupt_bypass_witness :
    (handle_speak { sBusy with reacted_event_ids := ["ev-9"] } reqI w0 100).1 =
      ⟨true, "interrupt_bypass", some true⟩ ∧
    (handle_speak { sBusy with reacted_event_ids := ["ev-9"] } reqI w0 100).2.2.delivery_attempted = true ∧
    (handle_speak { sBusy with reacted_event_ids := ["ev-9"] } reqI w0 100).2.2.stop_signal_sent = true :=
  ⟨(C2_interrupt_bypass { sBusy with reacted_event_ids := ["ev-9"] } reqI w0 100 rfl).2.2.2.2.2.1,
   (C2_interrupt_bypass { sBusy with reacted_event_ids := ["ev-9"] } reqI w0 100 rfl).2.2.2.2.2.2.2.1,
   (C2_interrupt_bypass { sBusy with reacted_event_ids := ["ev-9"] } reqI w0 100 rfl).2.2.2.2.2.2.2.2.1⟩

/-- After a dispatch registration with a non-empty event id, the id is in
the ledger - for every possible eviction choice - provided the ledger was
strictly below capacity beforehand, so that the insertion cannot overflow
and no `set.pop()` happens.  (At a full ledger the pop is arbitrary and may
remove the id just added, so no such guarantee exists there; see
`C3_counterexample`.) -/
lemma register_dispatch_mem (s : SpeechGate) (e : String) (evict : ℕ)
    (now : ℤ) (hne : e ≠ "")
    (hcap : s.reacted_event_ids.length < s.max_tracked_events) :
    e ∈ (register_dispatch s (some e) evict now).reacted_event_ids := by
  have hled : (register_dispatch s (some e) evict now).reacted_event_ids =
      updateLedger s.reacted_event_ids s.max_tracked_events e evict := by
    simp [register_dispatch, strTruthy, hne]
  rw [hled]
  unfold updateLedger
  by_cases hc : s.reacted_event_ids.contains e = true
  · rw [if_pos hc]
    have hnp : ¬ (s.reacted_event_ids.length > s.max_tracked_events) := by
      omega
    rw [if_neg hnp]
    exact List.elem_iff.mp hc
  · rw [if_neg hc]
    have hnp : ¬ ((e :: s.reacted_event_ids).length > s.max_tracked_events) := by
      simp only [List.length_cons]; omega
    rw [if_neg hnp]
    exact List.mem_cons_self e _

/-- The rule chain returns the state produced by the gate-1 `is_speaking`
call unchanged. -/
lemma can_speak_snd (s : SpeechGate) (now : ℤ) :
    (can_speak s now).2 = (is_speaking s now).2 := by
  by_cases hs : (is_speaking s now).1 = true <;>
  by_cases hc : in_cooldown (is_speaking s now).2 now = true <;>
  by_cases hm : now - (is_speaking s now).2.last_dispatch_time <
      (is_speaking s now).2.min_speech_interval <;>
  by_cases hr : now - (is_speaking s now).2.last_user_response_time <
      (is_speaking s now).2.post_response_cooldown <;>
    simp [can_speak, hs, hc, hm, hr]

/-- A non-interrupt request whose event id the dedup check recognises is
answered already_reacted with the state returned untouched and no effects. -/
lemma handle_speak_already (s : SpeechGate) (req : SpeakRequest) (w : World)
    (now : ℤ) (hni : req.is_interrupt = false)
    (hcr : check_event_reacted s req.event_id = true) :
    handle_speak s req w now = (⟨false, "already_reacted", none⟩, s, noEffects) := by
  simp [handle_speak, hni, hcr]

/-- A ledger of 50 distinct ids (none of them "ev-new"): the boundary state
where the dedup set is exactly at its capacity of 50. -/
def ids50 : List String :=
  (List.range 50).map (fun i => String.mk (List.replicate (i + 1) 'x'))

/-- A gate whose dedup ledger is full. -/
def s50 : SpeechGate := { gate0 with reacted_event_ids := ids50 }

/-- A normal request carrying the fresh event id "ev-new". -/
def reqNew : SpeakRequest := { req0 with event_id := some "ev-new" }

/-- C3 as stated is false at the capacity boundary: with the ledger already
holding 50 ids, a successful delivery of fresh id "ev-new" overflows the
set and `set.pop()` removes an arbitrary element - here the choice that
CPython is free to make, the just-added id itself.  The resubmission of
"ev-new" then passes the dedup check and is delivered with "ok" instead of
being rejected as already_reacted. -/
theorem C3_counterexample :
    s50.reacted_event_ids.length = s50.max_tracked_events ∧
    (handle_speak s50 reqNew w0 100).1 = ⟨true, "ok", none⟩ ∧
    check_event_reacted (handle_speak s50 reqNew w0 100).2.1
      reqNew.event_id = false ∧
    (handle_speak (handle_speak s50 reqNew w0 100).2.1 reqNew w0 200).1 =
      ⟨true, "ok", none⟩ := by
  refine ⟨by decide, by decide, by decide, by decide⟩

/-- C3 amended: on the normal path the dedup check runs before the rule
chain and is absolute: a non-empty event id currently in the ledger yields
gate_result "already_reacted" with no state change and no outbound call,
regardless of the cooldown rules; `check_event_reacted` is true iff a
non-empty id is in the ledger; and after a successful delivery of an event
id, resubmitting it is rejected the same way for every eviction choice,
provided the ledger was strictly below capacity when the dispatch was
registered (at a full ledger the overflow `set.pop()` may evict the
just-registered id, see `C3_counterexample`). -/
theorem C3_dedup_amended (s : SpeechGate) (req : SpeakRequest)
    (w w' : World) (now now' : ℤ) (e : String)
    (hni : req.is_interrupt = false)
    (he : req.event_id = some e) (hne : e ≠ "") :
    check_event_reacted s none = false ∧
    check_event_reacted s (some "") = false ∧
    check_event_reacted s (some e) = s.reacted_event_ids.contains e ∧
    (e ∈ s.reacted_event_ids →
      (handle_speak s req w now).1 = ⟨false, "already_reacted", none⟩ ∧
      (handle_speak s req w now).2.1 = s ∧
      (handle_speak s req w now).2.2 = noEffects) ∧
    (s.reacted_event_ids.length < s.max_tracked_events →
      (handle_speak s req w now).1.delivered = true →
      (handle_speak (handle_speak s req w now).2.1 req w' now').1 =
        ⟨false, "already_reacted", none⟩) := by
  refine ⟨rfl, by simp [check_event_reacted, strTruthy], ?_, ?_, ?_⟩
  · simp [check_event_reacted, strTruthy, hne]
  · intro h
    have hcr : check_event_reacted s req.event_id = true := by
      simp [check_event_reacted, he, strTruthy, hne, h]
    rw [handle_speak_already s req w now hni hcr]
    exact ⟨rfl, rfl, rfl⟩
  · intro hcap hd
    by_cases hcr : check_event_reacted s req.event_id = true
    · rw [handle_speak_already s req w now hni hcr] at hd
      simp at hd
    · by_cases hal : (can_speak s now).1.allowed = true
      · by_cases hna : w.nami_accepts = true
        · have hstate : (handle_speak s req w now).2.1 =
              register_dispatch (can_speak s now).2 req.event_id w.evict now := by
            simp [handle_speak, hni, hcr, hal, hna]
          have h1 : (can_speak s now).2.max_tracked_events =
              s.max_tracked_events := by
            rw [can_speak_snd]; exact (is_speaking_snd s now).2.2.2.2.2.2.2.2.2
          have h2 : (can_speak s now).2.reacted_event_ids =
              s.reacted_event_ids := by
            rw [can_speak_snd]; exact (is_speaking_snd s now).2.2.2.2.2.2.1
          have hmem : e ∈ (register_dispatch (can_speak s now).2
              req.event_id w.evict now).reacted_event_ids := by
            rw [he]
            exact register_dispatch_mem _ e w.evict now hne
              (by rw [h2, h1]; exact hcap)
          have hcr2 : check_event_reacted (handle_speak s req w now).2.1
              req.event_id = true := by
            rw [hstate, he]
            rw [he] at hmem
            simp [check_event_reacted, strTruthy, hne]
            exact hmem
          rw [handle_speak_already _ req w' now' hni hcr2]
        · have hdv : (handle_speak s req w now).1.delivered = w.nami_accepts := by
            simp [handle_speak, hni, hcr, hal]
          rw [hdv] at hd
          exact absurd hd hna
      · have hdv : (handle_speak s req w now).1.delivered = false := by
          simp [handle_speak, hni, hcr, hal]
        rw [hdv] at hd
        exact absurd hd (by simp)

/-- Witness for C3 amended, at concrete inputs: with "ev-1" already in the
ledger and every cooldown satisfied at time 100, the request is rejected as
already_reacted with no outbound call; and a fresh (below-capacity) gate
that successfully delivers "ev-1" rejects its resubmission. -/
theorem C3_dedup_amended_witness :
    (handle_speak { gate0 with reacted_event_ids := ["ev-1"] }
        { req0 with event_id := some "ev-1" } w0 100).1 =
      ⟨false, "already_reacted", none⟩ ∧
    (handle_speak { gate0 with reacted_event_ids := ["ev-1"] }
        { req0 with event_id := some "ev-1" } w0 100).2.2 = noEffects ∧
    (handle_speak (handle_speak gate0 { req0 with event_id := some "ev-1" }
        w0 100).2.1 { req0 with event_id := some "ev-1" } w0 200).1 =
      ⟨false, "already_reacted", none⟩ :=
  ⟨((C3_dedup_amended { gate0 with reacted_event_ids := ["ev-1"] }
      { req0 with event_id := some "ev-1" } w0 w0 100 200 "ev-1"
      rfl rfl (by decide)).2.2.2.1 (by decide)).1,
   ((C3_dedup_amended { gate0 with reacted_event_ids := ["ev-1"] }
      { req0 with event_id := some "ev-1" } w0 w0 100 200 "ev-1"
      rfl rfl (by decide)).2.2.2.1 (by decide)).2.2,
   (C3_dedup_amended gate0 { req0 with event_id := some "ev-1" }
      w0 w0 100 200 "ev-1" rfl rfl (by decide)).2.2.2.2 (by decide)
      (by decide)⟩

/-- C4: the timeout failsafe.  When the gate believes she is speaking, the
start time is set, and more than `speech_timeout` has elapsed, `is_speaking`
answers false and heals the state (speaking and awaiting both cleared), so
any later admission check cannot fail with reason "nami_speaking"; and for
any state in which the failsafe condition does not hold, `is_speaking`
returns the raw speaking flag and leaves the state untouched. -/
theorem C4_timeout_failsafe (s : SpeechGate) (now now' : ℤ)
    (hspk : s.nami_is_speaking = true)
    (hset : s.speech_started_time ≠ 0)
    (hto : now - s.speech_started_time > s.speech_timeout) :
    (is_speaking s now).1 = false ∧
    (is_speaking s now).2.nami_is_speaking = false ∧
    (is_speaking s now).2.awaiting_user_response = false ∧
    (can_speak (is_speaking s now).2 now').1.reason ≠ "nami_speaking" ∧
    (∀ (t : SpeechGate) (m : ℤ),
      ¬(t.nami_is_speaking = true ∧ t.speech_started_time ≠ 0 ∧
          m - t.speech_started_time > t.speech_timeout) →
      is_speaking t m = (t.nami_is_speaking, t)) := by
  have hh : is_speaking s now =
      (false, { s with nami_is_speaking := false,
                       awaiting_user_response := false }) := by
    simp [is_speaking, hspk, hset, hto]
  have hgen : ∀ (u : SpeechGate) (m : ℤ), u.nami_is_speaking = false →
      (can_speak u m).1.reason ≠ "nami_speaking" := by
    intro u m hu
    have h3 : is_speaking u m = (false, u) := by simp [is_speaking, hu]
    by_cases hc : in_cooldown u m = true <;>
    by_cases hm2 : m - u.last_dispatch_time < u.min_speech_interval <;>
    by_cases hr2 : m - u.last_user_response_time < u.post_response_cooldown <;>
      simp [can_speak, h3, hc, hm2, hr2]
  refine ⟨by rw [hh], by rw [hh], by rw [hh], ?_, ?_⟩
  · exact hgen _ now' (by rw [hh])
  · intro t m h
    by_cases h1 : t.nami_is_speaking = false
    · simp [is_speaking, h1]
    · have h1' : t.nami_is_speaking = true := by
        cases hb : t.nami_is_speaking
        · exact absurd hb h1
        · rfl
      have h2 : ¬(t.speech_started_time ≠ 0 ∧
          m - t.speech_started_time > t.speech_timeout) := by
        intro hx
        exact h ⟨h1', hx.1, hx.2⟩
      simp [is_speaking, h1', h2]

/-- Witness for C4: started at time 0 (well, 1, since 0 is the absent
sentinel), still flagged speaking at time 100 with a 60s timeout: the check
answers false, heals the state, and a later admission check at time 100
does not report "nami_speaking". -/
theorem C4_timeout_failsafe_witness :
    (is_speaking { sBusy with speech_started_time := 1 } 100).1 = false ∧
    (is_speaking { sBusy with speech_started_time := 1 } 100).2.nami_is_speaking = false ∧
    (is_speaking { sBusy with speech_started_time := 1 } 100).2.awaiting_user_response = false ∧
    (can_speak (is_speaking { sBusy with speech_started_time := 1 } 100).2 100).1.reason ≠ "nami_speaking" :=
  ⟨(C4_timeout_failsafe { sBusy with speech_started_time := 1 } 100 100
      rfl (by decide) (by decide)).1,
   (C4_timeout_failsafe { sBusy with speech_started_time := 1 } 100 100
      rfl (by decide) (by decide)).2.1,
   (C4_timeout_failsafe { sBusy with speech_started_time := 1 } 100 100
      rfl (by decide) (by decide)).2.2.1,
   (C4_timeout_failsafe { sBusy with speech_started_time := 1 } 100 100
      rfl (by decide) (by decide)).2.2.2.1⟩

/-- C5: `register_dispatch` runs only after a confirmed successful delivery.
For an admitted non-interrupt request whose delivery fails, the response is
exactly delivered=false / "nami_rejected", the dispatch timer and the dedup
ledger are untouched, and the dispatch registration flag is off; the
interrupt path never registers a dispatch at all.  (Collaborator failures
are values of the `World` oracle, so by construction no exception reaches
the caller: the handler is a total function into responses.) -/
theorem C5_register_only_on_success (s : SpeechGate) (req : SpeakRequest)
    (w : World) (now : ℤ)
    (hni : req.is_interrupt = false)
    (hde : check_event_reacted s req.event_id = false)
    (hallow : (can_speak s now).1.allowed = true)
    (hfail : w.nami_accepts = false) :
    (handle_speak s req w now).1 = ⟨false, "nami_rejected", none⟩ ∧
    (handle_speak s req w now).2.1.last_dispatch_time = s.last_dispatch_time ∧
    (handle_speak s req w now).2.1.reacted_event_ids = s.reacted_event_ids ∧
    (handle_speak s req w now).2.2.register_dispatch_called = false ∧
    (∀ (t : SpeechGate) (r : SpeakRequest) (v : World) (m : ℤ),
      r.is_interrupt = true →
      (handle_speak t r v m).2.2.register_dispatch_called = false) := by
  have hstate : (handle_speak s req w now).2.1 = (can_speak s now).2 := by
    simp [handle_speak, hni, hde, hallow, hfail]
  refine ⟨?_, ?_, ?_, ?_, ?_⟩
  · simp [handle_speak, hni, hde, hallow, hfail]
  · rw [hstate, can_speak_snd]
    exact (is_speaking_snd s now).2.2.1
  · rw [hstate, can_speak_snd]
    exact (is_speaking_snd s now).2.2.2.2.2.2.1
  · simp [handle_speak, hni, hde, hallow, hfail]
  · intro t r v m hr
    simp [handle_speak, hr]

/-- Witness for C5: a fresh gate at time 100 admits the request, Nami
refuses it, and nothing was recorded. -/
theorem C5_register_only_on_success_witness :
    (handle_speak gate0 { req0 with event_id := some "ev-2" }
        { w0 with nami_accepts := false } 100).1 =
      ⟨false, "nami_rejected", none⟩ ∧
    (handle_speak gate0 { req0 with event_id := some "ev-2" }
        { w0 with nami_accepts := false } 100).2.1.reacted_event_ids =
      gate0.reacted_event_ids ∧
    (handle_speak gate0 { req0 with event_id := some "ev-2" }
        { w0 with nami_accepts := false } 100).2.2.register_dispatch_called =
      false :=
  ⟨(C5_register_only_on_success gate0 { req0 with event_id := some "ev-2" }
      { w0 with nami_accepts := false } 100 rfl rfl (by decide) rfl).1,
   (C5_register_only_on_success gate0 { req0 with event_id := some "ev-2" }
      { w0 with nami_accepts := false } 100 rfl rfl (by decide) rfl).2.2.1,
   (C5_register_only_on_success gate0 { req0 with event_id := some "ev-2" }
      { w0 with nami_accepts := false } 100 rfl rfl (by decide) rfl).2.2.2.1⟩

/-- C10 (implicit): `interrupt` reads the raw speaking flag, not the
failsafe-filtered `is_speaking`.  In a state past the failsafe window
(lost finish signal), `is_speaking` would say false, yet an interrupt
request still captures was_speaking=true: the handler reports
interrupted=true and sends the stop signal although no speech is actually
in progress. -/
theorem C10_interrupt_ignores_failsafe (s : SpeechGate) (req : SpeakRequest)
    (w : World) (now : ℤ)
    (hi : req.is_interrupt = true)
    (hspk : s.nami_is_speaking = true)
    (hset : s.speech_started_time ≠ 0)
    (hto : now - s.speech_started_time > s.speech_timeout) :
    (is_speaking s now).1 = false ∧
    (interrupt s now).1 = true ∧
    (handle_speak s req w now).1.interrupted = some true ∧
    (handle_speak s req w now).2.2.stop_signal_sent = true := by
  refine ⟨by simp [is_speaking, hspk, hset, hto], by simp [interrupt, hspk], ?_, ?_⟩ <;>
    simp [handle_speak, hi, interrupt, hspk]

/-- Witness for C10: stale speaking state (started at 1, now 100, timeout
60): the failsafe check says not speaking, but the interrupt still reports
interrupted=true and triggers the stop signal. -/
theorem C10_interrupt_ignores_failsafe_witness :
    (is_speaking { sBusy with speech_started_time := 1 } 100).1 = false ∧
    (handle_speak { sBusy with speech_started_time := 1 } reqI w0 100).1.interrupted = some true ∧
    (handle_speak { sBusy with speech_started_time := 1 } reqI w0 100).2.2.stop_signal_sent = true :=
  ⟨(C10_interrupt_ignores_failsafe { sBusy with speech_started_time := 1 }
      reqI w0 100 rfl rfl (by decide) (by decide)).1,
   (C10_interrupt_ignores_failsafe { sBusy with speech_started_time := 1 }
      reqI w0 100 rfl rfl (by decide) (by decide)).2.2.1,
   (C10_interrupt_ignores_failsafe { sBusy with speech_started_time := 1 }
      reqI w0 100 rfl rfl (by decide) (by decide)).2.2.2⟩

/-- C6: the claim says a true `awaiting_user_response` suppresses
non-interrupt speech, but `can_speak` (speech_gate.py:95-119) never reads
that field.  Concretely: interrupt a fresh gate at time 0 (which sets
awaiting_user_response), then submit a plain request at time 100 — every
rule passes, the decision is "ok" and the request is delivered.  This
contradicts the interrupt docstring ("awaiting_user_response set True so
idle/proactive stays suppressed until the user speaks again naturally"). -/
theorem C6_awaiting_not_consulted :
    (interrupt gate0 0).2.awaiting_user_response = true ∧
    (can_speak (interrupt gate0 0).2 100).1 = ⟨true, "ok"⟩ ∧
    (handle_speak (interrupt gate0 0).2 req0 w0 100).1 = ⟨true, "ok", none⟩ ∧
    (handle_speak (interrupt gate0 0).2 req0 w0 100).2.2.delivery_attempted =
      true := by
  refine ⟨rfl, by decide, by decide, by decide⟩

/-- A gate that has been speaking since time 5. -/
def sAlready : SpeechGate :=
  { gate0 with nami_is_speaking := true, speech_started_time := 5 }

/-- C7 as stated is false: `set_speaking(true, ...)` stamps
`speech_started_time = now` unconditionally (speech_gate.py:56-57), also
when the gate is already speaking.  Counterexample: a gate already speaking
since time 5 receives a second start report (no source) at time 10 - the
recorded start time becomes 10. -/
theorem C7_counterexample :
    sAlready.nami_is_speaking = true ∧
    (set_speaking sAlready true none 10).speech_started_time = 10 ∧
    (set_speaking sAlready true none 10).speech_started_time ≠ 5 := by
  refine ⟨rfl, by decide, by decide⟩

/-- C7 amended: a start report always stamps `speech_started_time = now`,
including while already speaking (the start time IS reset by a repeated
start call); a repeated start call with no source leaves the source label,
the finished time and the awaiting flag alone. -/
theorem C7_start_always_stamped (s : SpeechGate) (source : Option String)
    (now : ℤ) :
    (set_speaking s true source now).speech_started_time = now ∧
    (set_speaking s true source now).nami_is_speaking = true ∧
    (set_speaking s true none now).last_speech_source = s.last_speech_source ∧
    (set_speaking s true none now).last_speech_finished_time =
      s.last_speech_finished_time ∧
    (set_speaking s true none now).awaiting_user_response =
      s.awaiting_user_response := by
  unfold set_speaking
  refine ⟨?_, ?_, ?_, ?_, ?_⟩ <;> simp [strTruthy] <;> split <;> simp

/-- Looking up the key just set finds the new value. -/
lemma lookupKey_setKey_self (d : List (String × JVal)) (k : String) (v : JVal) :
    lookupKey (setKey d k v) k = some v := by
  induction d with
  | nil => simp [setKey, lookupKey]
  | cons p rest ih =>
    by_cases h : p.1 = k
    · simp [setKey, h, lookupKey]
    · simp [setKey, h, lookupKey, ih]

/-- Setting one key leaves every other key's lookup unchanged. -/
lemma lookupKey_setKey_ne (d : List (String × JVal)) (k k' : String) (v : JVal)
    (h : k' ≠ k) :
    lookupKey (setKey d k v) k' = lookupKey d k' := by
  induction d with
  | nil => simp [setKey, lookupKey, Ne.symm h]
  | cons p rest ih =>
    by_cases hp : p.1 = k
    · have hp' : ¬ p.1 = k' := by rw [hp]; exact Ne.symm h
      simp [setKey, lookupKey, hp, hp', Ne.symm h]
    · by_cases hp' : p.1 = k'
      · simp [setKey, lookupKey, hp, hp', h]
      · simp [setKey, lookupKey, hp, hp', ih]

/-- Splatting metadata does not touch keys that do not occur in it. -/
lemma lookupKey_mergeMeta_not_mem (md base : List (String × JVal)) (k : String)
    (h : k ∉ md.map Prod.fst) :
    lookupKey (mergeMeta base md) k = lookupKey base k := by
  induction md generalizing base with
  | nil => rfl
  | cons q rest ih =>
    simp only [List.map_cons, List.mem_cons, not_or] at h
    have hstep : mergeMeta base (q :: rest) =
        mergeMeta (setKey base q.1 q.2) rest := rfl
    rw [hstep, ih _ h.2, lookupKey_setKey_ne _ _ _ _ h.1]

/-- With duplicate-free metadata keys, every metadata entry wins the merge:
its key looks up to its value, whatever the base dict said. -/
lemma lookupKey_mergeMeta_mem (md base : List (String × JVal))
    (p : String × JVal) (hnd : (md.map Prod.fst).Nodup) (hm : p ∈ md) :
    lookupKey (mergeMeta base md) p.1 = some p.2 := by
  induction md generalizing base with
  | nil => cases hm
  | cons q rest ih =>
    simp only [List.map_cons, List.nodup_cons] at hnd
    have hstep : mergeMeta base (q :: rest) =
        mergeMeta (setKey base q.1 q.2) rest := rfl
    rcases List.mem_cons.mp hm with hq | hrest
    · subst hq
      rw [hstep, lookupKey_mergeMeta_not_mem _ _ _ hnd.1]
      exact lookupKey_setKey_self _ _ _
    · rw [hstep]
      exact ih _ hnd.2 hrest

/-- C8: graceful degradation of context enrichment.  Whenever the context
fetch fails (any failure mode is `director_response = none`), an admitted or
interrupt request still goes out: the payload carries the empty context
block, delivery is attempted, and it succeeds exactly when Nami accepts. -/
theorem C8_context_degrade (s : SpeechGate) (req : SpeakRequest) (w : World)
    (now : ℤ)
    (hw : w.director_response = none)
    (hpath : req.is_interrupt = true ∨
      (check_event_reacted s req.event_id = false ∧
       (can_speak s now).1.allowed = true)) :
    (build_payload req w.director_response).context = "" ∧
    (handle_speak s req w now).2.2.delivery_attempted = true ∧
    (handle_speak s req w now).2.2.payload_sent =
      some (build_payload req w.director_response) ∧
    (handle_speak s req w now).1.delivered = w.nami_accepts := by
  have hctx : (build_payload req w.director_response).context = "" := by
    rw [hw]; rfl
  refine ⟨hctx, ?_, ?_, ?_⟩ <;>
  · by_cases hi : req.is_interrupt = true
    · simp [handle_speak, hi]
    · rcases hpath with h | ⟨hde, hal⟩
      · exact absurd h hi
      · simp [handle_speak, hi, hde, hal]

/-- Witness for C8: fresh gate, director down, Nami up: the payload context
is empty and the request is still delivered. -/
theorem C8_context_degrade_witness :
    (build_payload req0 w0.director_response).context = "" ∧
    (handle_speak gate0 req0 w0 100).2.2.delivery_attempted = true ∧
    (handle_speak gate0 req0 w0 100).1.delivered = w0.nami_accepts :=
  ⟨(C8_context_degrade gate0 req0 w0 100 rfl
      (Or.inr ⟨rfl, by decide⟩)).1,
   (C8_context_degrade gate0 req0 w0 100 rfl
      (Or.inr ⟨rfl, by decide⟩)).2.1,
   (C8_context_degrade gate0 req0 w0 100 rfl
      (Or.inr ⟨rfl, by decide⟩)).2.2.2⟩

/-- C9: shape of the outbound payload.  Context block from the enrichment
(empty on failure), original content, effective priority 0 for interrupts
and the request's own priority otherwise; `source_info` merges the fixed
shape with the enrichment auxiliaries (null when enrichment failed) and
then the request metadata, metadata keys taking precedence over same-named
fixed fields, while keys absent from the metadata keep the fixed values. -/
theorem C9_payload_shape (req : SpeakRequest) (dd : Option DirectorData)
    (hnd : (req.metadata.map Prod.fst).Nodup) :
    (build_payload req dd).content = req.content ∧
    (build_payload req dd).priority =
      (if req.is_interrupt = true then 0 else req.priority) ∧
    (build_payload req dd).context =
      (match dd with | some d => d.context.getD "" | none => "") ∧
    (∀ p ∈ req.metadata,
      lookupKey (build_payload req dd).source_info p.1 = some p.2) ∧
    (∀ k, k ∉ req.metadata.map Prod.fst →
      lookupKey (build_payload req dd).source_info k =
        lookupKey (source_info_base req dd) k) ∧
    lookupKey (source_info_base req dd) "source" = some (JVal.str req.source) ∧
    lookupKey (source_info_base req dd) "use_tts" = some (JVal.bool true) ∧
    lookupKey (source_info_base req dd) "is_interrupt" =
      some (JVal.bool req.is_interrupt) ∧
    lookupKey (source_info_base req dd) "mood" =
      some (optField dd DirectorData.mood) ∧
    lookupKey (source_info_base req dd) "scene" =
      some (optField dd DirectorData.scene) ∧
    lookupKey (source_info_base req dd) "directive" =
      some (optField dd DirectorData.directive) ∧
    lookupKey (source_info_base req dd) "active_user" =
      some (optField dd DirectorData.active_user) := by
  refine ⟨rfl, rfl, ?_, ?_, ?_, rfl, rfl, rfl, rfl, rfl, rfl, rfl⟩
  · cases dd <;> rfl
  · intro p hp
    exact lookupKey_mergeMeta_mem _ _ p hnd hp
  · intro k hk
    exact lookupKey_mergeMeta_not_mem _ _ k hk

/-- A successful director response used by the C9 witness. -/
def dirData : DirectorData :=
  { context := some "ctx", mood := some (JVal.str "calm"), scene := none,
    directive := none, active_user := some JVal.null }

/-- A request whose metadata overrides the fixed "source" field and adds a
fresh "extra" field. -/
def reqMeta : SpeakRequest :=
  { req0 with
    metadata := [("source", JVal.str "OVERRIDE"), ("extra", JVal.num 7)] }

/-- Witness for C9: metadata overriding the fixed "source" field wins, a
fresh key is appended, and untouched fixed fields keep their values. -/
theorem C9_payload_shape_witness :
    lookupKey (build_payload reqMeta (some dirData)).source_info "source" =
      some (JVal.str "OVERRIDE") ∧
    lookupKey (build_payload reqMeta (some dirData)).source_info "extra" =
      some (JVal.num 7) ∧
    lookupKey (build_payload reqMeta (some dirData)).source_info "use_tts" =
      lookupKey (source_info_base reqMeta (some dirData)) "use_tts" ∧
    lookupKey (source_info_base reqMeta (some dirData)) "use_tts" =
      some (JVal.bool true) ∧
    (build_payload reqMeta (some dirData)).context = "ctx" :=
  ⟨(C9_payload_shape reqMeta (some dirData) (by decide)).2.2.2.1
      ("source", JVal.str "OVERRIDE") (by decide),
   (C9_payload_shape reqMeta (some dirData) (by decide)).2.2.2.1
      ("extra", JVal.num 7) (by decide),
   (C9_payload_shape reqMeta (some dirData) (by decide)).2.2.2.2.1
      "use_tts" (by decide),
   (C9_payload_shape reqMeta (some dirData) (by decide)).2.2.2.2.2.2.1,
   (C9_payload_shape reqMeta (some dirData) (by decide)).2.2.1⟩
